import Mathlib

/-!
Formal model of the lento RAG chat server (`app/main.go`).

The Go program orchestrates a retrieval-augmented chat pipeline:
`chatApiHandler` summarizes the chat history into a standalone question,
runs `RunRAG` (embedding similarity search via `findSimilar`, then a
remote rerank), and streams the final completion back over SSE.
`Init` loads the document corpus from a summary manifest and an optional
title manifest.

Modelling conventions:
- `float32` vector components are modelled as exact rationals (`ℚ`);
  rounding is abstracted away, cosine similarity is stated over `ℝ`.
- Remote endpoints (embedding, completion, rerank) are modelled as
  oracle parameters returning `Except String _`, mirroring Go's
  `(value, error)` returns.
- Go panics (out-of-range slice indexing) are modelled by a dedicated
  outcome constructor (`panicked`) or by `Option` (`none` = panic), so
  that a panic is distinguishable from a returned error.
- `slices.SortFunc` (an unstable comparison sort) is modelled by
  `List.insertionSort` over the same comparator; the source comparator
  only inspects the similarity values, so any comparison sort yields a
  list sorted by the comparator, and tie order is unspecified in both.
-/

deriving instance DecidableEq for Except

namespace Lento

/-- Configuration values consumed by the core logic (subset of Go `Config`). -/
structure Config where
  modelWithoutThinking : String
  topEmb : Nat
  topRerank : Nat
deriving DecidableEq

/-- One chat message (`openai.ChatCompletionMessage`): a role and a content string. -/
structure ChatMessage where
  role : String
  content : String
deriving DecidableEq

/-- A chat completion request (`openai.ChatCompletionRequest`). The handler only
ever touches `Model`, `Stream` and `Messages`; every other caller-supplied field
is kept opaque in the type parameter `ε`. -/
structure ChatRequest (ε : Type) where
  model : String
  stream : Bool
  messages : List ChatMessage
  extra : ε
deriving DecidableEq

/-- The fixed system instruction of the summarization call (main.go line 47). -/
def summarizeInstruction : String :=
  "请根据以下提供的聊天记录历史，总结出一条用户的原始问题。"

/-- The user content of the final streamed call (main.go line 80):
the fixed template with the synthesized question and the retrieval result. -/
def finalUserContent (question result : String) : String :=
  "请根据以下检索到的信息，回答用户的原始问题：" ++ question ++ "\n\n" ++ result

/-- The transcript built by the loop at main.go lines 37-43: every message is
enumerated, system messages are skipped (their index still advances), and each
remaining message contributes the line `"<index>. [role=<role>] <content>\n\n"`. -/
def buildChatHistory (msgs : List ChatMessage) : String :=
  msgs.enum.foldl
    (fun acc p =>
      if p.2.role = "system" then acc
      else acc ++ toString p.1 ++ ". [role=" ++ p.2.role ++ "] " ++ p.2.content ++ "\n\n")
    ""

/-- Outcome of one run of `chatApiHandler` up to the point where the SSE stream
starts. `panicked` models a Go runtime panic (index out of range). `errored`
models a structured JSON error response. `streaming` records the summarization
request actually sent, the synthesized question, the retrieval result, and the
final streaming request actually sent. -/
inductive ChatOutcome (ε : Type) where
  | panicked : ChatOutcome ε
  | errored (msg : String) : ChatOutcome ε
  | streaming (sumReq : ChatRequest ε) (question : String) (ragResult : String)
      (finalReq : ChatRequest ε) : ChatOutcome ε
deriving DecidableEq

/-- Model of `chatApiHandler` (main.go lines 19-89), after JSON binding and up to
the streaming stage. `llm` is the non-streaming completion endpoint returning
`response.Choices[0].Message.Content`; `rag` is `RunRAG`. The Go code reads
`request.Messages[0]` unconditionally, so an empty message list panics. -/
def chatApiHandler {ε : Type} (cfg : Config) (req : ChatRequest ε)
    (llm : ChatRequest ε → Except String String)
    (rag : String → Except String String) : ChatOutcome ε :=
  match req.messages with
  | [] => ChatOutcome.panicked
  | m0 :: _ =>
    let systemPrompt := if m0.role = "system" then m0.content else ""
    let model := req.model
    let sumReq : ChatRequest ε :=
      { req with
        model := cfg.modelWithoutThinking
        stream := false
        messages :=
          [⟨"system", summarizeInstruction⟩, ⟨"user", buildChatHistory req.messages⟩] }
    match llm sumReq with
    | Except.error e => ChatOutcome.errored e
    | Except.ok question =>
      match rag question with
      | Except.error e => ChatOutcome.errored e
      | Except.ok result =>
        let finalReq : ChatRequest ε :=
          { sumReq with
            model := model
            stream := true
            messages :=
              [⟨"system", systemPrompt⟩, ⟨"user", finalUserContent question result⟩] }
        ChatOutcome.streaming sumReq question result finalReq

/-- One SSE frame as written at main.go lines 104-106: `"data: " ++ frame ++ "\n\n"`. -/
def sseWrap (buf : String) : String :=
  "data: " ++ buf ++ "\n\n"

/-- The body written by `c.JSON(http.StatusInternalServerError, gin.H{"error": err})`
when the SSE stream has already started. -/
def jsonErrorBody (e : String) : String :=
  "\x7b\"error\":\"" ++ e ++ "\"\x7d"

/-- The writes performed by the `c.Stream` loop (main.go lines 95-109). The
upstream stream is a finite list of raw frames followed by a terminal condition:
`none` models `io.EOF`, `some e` models any other `RecvRaw` error. A frame is
forwarded wrapped; on EOF the loop just stops; on another error the JSON error
body is written and the loop stops. -/
def streamLoop : List String → Option String → List String
  | [], none => []
  | [], some e => [jsonErrorBody e]
  | f :: rest, ending => sseWrap f :: streamLoop rest ending

/-- All writes of the streaming stage: the `c.Stream` loop followed by the
unconditional `c.Writer.Write([]byte("data: [DONE]\n\n"))` at main.go line 110. -/
def chatStreamWrites (frames : List String) (ending : Option String) : List String :=
  streamLoop frames ending ++ ["data: [DONE]\n\n"]

/-- One embedding (`openai.Embedding`): the `Index` field reported by the remote
endpoint and the numeric vector. -/
structure Embedding where
  index : Nat
  vec : List ℚ
deriving DecidableEq

/-- Total dot product of two equal-length vectors (the loop body of
`openai.Embedding.DotProduct`). -/
def dotQ (a b : List ℚ) : ℚ :=
  (a.zip b).foldl (fun acc p => acc + p.1 * p.2) 0

/-- `openai.Embedding.DotProduct`: errors on a length mismatch, otherwise the
sum of componentwise products. -/
def dotProduct (a b : List ℚ) : Except String ℚ :=
  if a.length ≠ b.length then Except.error ("vector length mismatch")
  else Except.ok (dotQ a b)

/-- `calcEmbeddings` (main.go lines 413-435): rejects an empty input, propagates
the remote error, and rejects a response whose vector count differs from the
input count. `resp` is the remote endpoint's `response.Data` (or its error). -/
def calcEmbeddings (input : List String) (resp : Except String (List Embedding)) :
    Except String (List Embedding) :=
  if input.length = 0 then Except.error ("input is empty")
  else
    match resp with
    | Except.error e => Except.error e
    | Except.ok data =>
      if data.length ≠ input.length then Except.error ("embedding length mismatch")
      else Except.ok data

/-- The per-candidate record of `findSimilar` (Go `Score`): the `Index` field
copied from the corpus embedding, the dot product with the query, and the
candidate's self-dot-product (kept unsimplified so that the comparator can be
related to the cosine similarity `dot / (normA * normB)`). -/
structure Score where
  index : Nat
  dot : ℚ
  dotB : ℚ
deriving DecidableEq

/-- The dot product a score's value is built from, with nonpositive
self-dot-products mapped to the junk value used by real square root and
division (`dot / sqrt dotB = dot / 0 = 0`). Scores built by `findSimilar`
always have `0 < dotB`, where this coincides with `dot`. -/
def adjDot (s : Score) : ℚ :=
  if s.dotB ≤ 0 then 0 else s.dot

/-- The self-dot-product a score's value is built from, adjusted like `adjDot`. -/
def adjB (s : Score) : ℚ :=
  if s.dotB ≤ 0 then 1 else s.dotB

/-- The comparator of `findSimilar`'s sort, as a proposition: `scoreGE a b` holds
iff `a.dot / sqrt a.dotB ≥ b.dot / sqrt b.dotB` (proved below as
`scoreGE_iff_real`), expressed with rational arithmetic only. -/
def scoreGE (a b : Score) : Prop :=
  (0 ≤ adjDot a ∧ 0 ≤ adjDot b ∧ adjDot b ^ 2 * adjB a ≤ adjDot a ^ 2 * adjB b) ∨
  (0 ≤ adjDot a ∧ adjDot b < 0) ∨
  (adjDot a < 0 ∧ adjDot b < 0 ∧ adjDot a ^ 2 * adjB b ≤ adjDot b ^ 2 * adjB a)

instance : DecidableRel scoreGE := fun a b => by
  unfold scoreGE
  infer_instance

/-- The score-building loop of `findSimilar` (main.go lines 373-393): for the
`i`-th corpus embedding, its self-dot-product is computed (error propagated),
checked strictly positive (else `"metric embedding i is zero"`), the dot product
with the query is computed (error propagated), and the score records the
embedding's remote `Index` field. -/
def mkScores (emb : Embedding) : List Embedding → Nat → Except String (List Score)
  | [], _ => Except.ok []
  | v :: rest, i =>
    match dotProduct v.vec v.vec with
    | Except.error e => Except.error e
    | Except.ok dotB =>
      if dotB ≤ 0 then Except.error ("metric embedding " ++ toString i ++ " is zero")
      else
        match dotProduct emb.vec v.vec with
        | Except.error e => Except.error e
        | Except.ok dot =>
          match mkScores emb rest (i + 1) with
          | Except.error e => Except.error e
          | Except.ok ss => Except.ok ({ index := v.index, dot := dot, dotB := dotB } :: ss)

/-- The pure core of `findSimilar` (main.go lines 353-410) after the query has
been embedded: clamp `topN` to the corpus size, require the query's
self-dot-product strictly positive (else `"embedding is zero"`), build all
scores, sort them by non-increasing value, and return the `Index` fields of the
first `topN` scores. -/
def findSimilarCore (emb : Embedding) (embeddings : List Embedding) (topN : Nat) :
    Except String (List Nat) :=
  match dotProduct emb.vec emb.vec with
  | Except.error e => Except.error e
  | Except.ok dotA =>
    if dotA ≤ 0 then Except.error ("embedding is zero")
    else
      match mkScores emb embeddings 0 with
      | Except.error e => Except.error e
      | Except.ok scores =>
        Except.ok
          (((List.insertionSort scoreGE scores).take (min topN embeddings.length)).map
            Score.index)

/-- `findSimilar` including the query-embedding call: `calcEmbeddings` is invoked
on the one-element list `[query]` with remote response `resp`, and the first
returned embedding is used (the length check guarantees there is exactly one). -/
def findSimilar (query : String) (resp : Except String (List Embedding))
    (embeddings : List Embedding) (topN : Nat) : Except String (List Nat) :=
  match calcEmbeddings [query] resp with
  | Except.error e => Except.error e
  | Except.ok data =>
    match data with
    | emb :: _ => findSimilarCore emb embeddings topN
    | [] => Except.error ("unreachable: length check returned an empty batch")

/-- One corpus document (Go `Document`). -/
structure Document where
  docId : Int
  title : String
  content : String
  summary : String
deriving DecidableEq

/-- One entry of the rerank endpoint's `results` array. -/
structure RerankEntry where
  index : Nat
  relevanceScore : ℚ
deriving DecidableEq

/-- Go map read `allDocIds[docId]`: the first matching entry, or the zero value
`0` when the key is absent. -/
def lookupIdx (m : List (Int × Nat)) (k : Int) : Nat :=
  ((m.find? (fun p => p.1 = k)).map Prod.snd).getD 0

/-- Index a list at each position of `idxs` (`l[i]` in Go); `none` models the
out-of-range panic. -/
def getElems {α : Type} (l : List α) : List Nat → Option (List α)
  | [] => some []
  | i :: is =>
    match l.get? i with
    | none => none
    | some x => (getElems l is).map (fun xs => x :: xs)

/-- The per-document block of `RunRAG`'s result (main.go lines 337-341). -/
def formatDoc (i : Nat) (doc : Document) : String :=
  "第" ++ toString (i + 1) ++ "篇文档" ++
    (if doc.title.length > 0 then "，标题为「" ++ doc.title ++ "」" else "") ++
    "：\n\n" ++ doc.content ++ "\n\n"

/-- The result-assembly loop of `RunRAG` (main.go lines 333-342): each reranked
doc id is resolved through the `allDocIds` map (zero-default) and `allDocuments`
(`none` models the panic on an out-of-range position). -/
def formatDocsLoop (docs : List Document) (m : List (Int × Nat)) :
    List Int → Nat → Option String
  | [], _ => some ("")
  | id :: rest, i =>
    match docs.get? (lookupIdx m id) with
    | none => none
    | some doc => (formatDocsLoop docs m rest (i + 1)).map (fun s => formatDoc i doc ++ s)

/-- Outcome of `RunRAG`: a Go panic, a returned error, or the formatted result. -/
inductive RagOutcome where
  | panicked : RagOutcome
  | errored (msg : String) : RagOutcome
  | succeeded (result : String) : RagOutcome
deriving DecidableEq

/-- Model of `RunRAG` (main.go lines 304-345). `docs`, `docIdMap` and
`embeddings` are the globals `allDocuments`, `allDocIds` and `allEmbeddings`;
`qEmbResp` is the embedding endpoint's response for the query; `rerankResp`
models the `rerank` call on `(question, summaries, cfg.topRerank)`. Positions
returned by `findSimilar` index `allDocuments` verbatim, and each rerank result
index is used verbatim into the candidate id list; `panicked` models the
out-of-range panics this can cause. -/
def RunRAG (cfg : Config) (docs : List Document) (docIdMap : List (Int × Nat))
    (embeddings : List Embedding) (qEmbResp : Except String (List Embedding))
    (rerankResp : String → List String → Nat → Except String (List RerankEntry))
    (question : String) : RagOutcome :=
  match findSimilar question qEmbResp embeddings cfg.topEmb with
  | Except.error e => RagOutcome.errored e
  | Except.ok resEmb =>
    match getElems docs resEmb with
    | none => RagOutcome.panicked
    | some selDocs =>
      let docIds := selDocs.map Document.docId
      let summaries := selDocs.map Document.summary
      match rerankResp question summaries cfg.topRerank with
      | Except.error e => RagOutcome.errored e
      | Except.ok results =>
        match getElems docIds (results.map RerankEntry.index) with
        | none => RagOutcome.panicked
        | some docIdsRerank =>
          let header := "检索到以下" ++ toString docIdsRerank.length ++ "篇文档：\n\n"
          match formatDocsLoop docs docIdMap docIdsRerank 0 with
          | none => RagOutcome.panicked
          | some body => RagOutcome.succeeded (header ++ body)

/-- `strconv.Atoi` on a base-10 string: an optional sign followed by at least
one digit (overflow is abstracted away by using unbounded integers). -/
def atoi (s : String) : Option Int :=
  let digitsVal : List Char → Int :=
    fun l => l.foldl (fun acc c => acc * 10 + (Int.ofNat (c.toNat - 48))) 0
  match s.toList with
  | [] => none
  | c :: rest =>
    if c = '-' then
      if rest ≠ [] ∧ rest.all Char.isDigit then some (-(digitsVal rest)) else none
    else if c = '+' then
      if rest ≠ [] ∧ rest.all Char.isDigit then some (digitsVal rest) else none
    else if (c :: rest).all Char.isDigit then some (digitsVal (c :: rest))
    else none

/-- `strings.SplitN(line, ":", 2)`: the whole string when it has no colon,
otherwise the parts before and after the first colon. -/
def splitN2 (s : String) : List String :=
  match s.toList.findIdx? (fun c => c = ':') with
  | none => [s]
  | some i => [String.mk (s.toList.take i), String.mk (s.toList.drop (i + 1))]

/-- `strings.TrimSuffix`: drop the given suffix when present. -/
def trimOneSuffix (s suf : String) : String :=
  if suf.toList.isSuffixOf s.toList then
    String.mk (s.toList.take (s.toList.length - suf.toList.length))
  else s

/-- The title cleanup of `Init` (main.go lines 214-225): the known document
extensions are trimmed in sequence. -/
def stripDocSuffixes (t : String) : String :=
  [".pdf", ".doc", ".docx", ".xls", ".xlsx", ".ppt", ".pptx"].foldl trimOneSuffix t

/-- The title-manifest loop of `Init` (main.go lines 206-228): a line without a
colon is skipped, a line whose id fails `strconv.Atoi` is skipped (the `err ==
nil` guard has no else branch), and every surviving line yields an id/title
pair. -/
def parseTitles : List String → List (Int × String)
  | [] => []
  | line :: rest =>
    match splitN2 line with
    | [s0, s1] =>
      match atoi s0 with
      | none => parseTitles rest
      | some v => (v, stripDocSuffixes s1) :: parseTitles rest
    | _ => parseTitles rest

/-- The summary-manifest loop of `Init` (main.go lines 243-274): a line without a
colon is skipped (`continue`), but a line whose id fails `strconv.Atoi` aborts
the whole load (`return err`), as does a missing content file. `content` maps a
doc id to its markdown file's contents (`none` models a missing file) and
`titles` is the map built from the title manifest. -/
def loadSummaryLines (content : Int → Option String) (titles : Int → Option String) :
    List String → Except String (List Document)
  | [] => Except.ok []
  | line :: rest =>
    match splitN2 line with
    | [s0, s1] =>
      match atoi s0 with
      | none => Except.error ("invalid syntax: " ++ s0)
      | some docId =>
        match content docId with
        | none => Except.error ("no such file: " ++ toString docId ++ ".md")
        | some c =>
          let doc : Document :=
            { docId := docId
              title := (titles docId).getD ("")
              content := c
              summary := s1 }
          match loadSummaryLines content titles rest with
          | Except.error e => Except.error e
          | Except.ok docs => Except.ok (doc :: docs)
    | _ => loadSummaryLines content titles rest

/-- A placeholder embedding, used only as the default of total list indexing in
theorem statements. -/
def dummyEmb : Embedding :=
  { index := 0, vec := [] }

/-- The score `findSimilar` builds for corpus embedding `v` (specification-side
shorthand for the cons case of `mkScores`). -/
def scoreOf (emb v : Embedding) : Score :=
  { index := v.index, dot := dotQ emb.vec v.vec, dotB := dotQ v.vec v.vec }

/-- The cosine similarity `dot(q,v) / (‖q‖·‖v‖)` between the query embedding and
the corpus embedding at position `p`, as a real number. -/
noncomputable def cosSim (emb : Embedding) (corpus : List Embedding) (p : Nat) : ℝ :=
  ((dotQ emb.vec (corpus.getD p dummyEmb).vec : ℚ) : ℝ) /
    (Real.sqrt ((dotQ emb.vec emb.vec : ℚ) : ℝ) *
      Real.sqrt ((dotQ (corpus.getD p dummyEmb).vec (corpus.getD p dummyEmb).vec : ℚ) : ℝ))

instance : IsTotal Score scoreGE :=
  ⟨by
    intro a b
    unfold scoreGE
    rcases le_or_lt 0 (adjDot a) with ha | ha
    · rcases le_or_lt 0 (adjDot b) with hb | hb
      · rcases le_total (adjDot b ^ 2 * adjB a) (adjDot a ^ 2 * adjB b) with h | h
        · exact Or.inl (Or.inl ⟨ha, hb, h⟩)
        · exact Or.inr (Or.inl ⟨hb, ha, h⟩)
      · exact Or.inl (Or.inr (Or.inl ⟨ha, hb⟩))
    · rcases le_or_lt 0 (adjDot b) with hb | hb
      · exact Or.inr (Or.inr (Or.inl ⟨hb, ha⟩))
      · rcases le_total (adjDot a ^ 2 * adjB b) (adjDot b ^ 2 * adjB a) with h | h
        · exact Or.inl (Or.inr (Or.inr ⟨ha, hb, h⟩))
        · exact Or.inr (Or.inr (Or.inr ⟨hb, ha, h⟩))⟩

instance : IsTrans Score scoreGE :=
  ⟨by
    intro a b c hab hbc
    have hBa : 0 < adjB a := by
      unfold adjB; split
      · norm_num
      · exact lt_of_not_le (by assumption)
    have hBb : 0 < adjB b := by
      unfold adjB; split
      · norm_num
      · exact lt_of_not_le (by assumption)
    have hBc : 0 < adjB c := by
      unfold adjB; split
      · norm_num
      · exact lt_of_not_le (by assumption)
    unfold scoreGE at hab hbc ⊢
    rcases hab with ⟨h1, h2, h3⟩ | ⟨h1, h2⟩ | ⟨h1, h2, h3⟩ <;>
      rcases hbc with ⟨g1, g2, g3⟩ | ⟨g1, g2⟩ | ⟨g1, g2, g3⟩ <;>
      first
        | (left; refine ⟨by linarith, by linarith, ?_⟩; nlinarith)
        | (right; left; exact ⟨by linarith, by linarith⟩)
        | (right; right; refine ⟨by linarith, by linarith, ?_⟩; nlinarith)⟩


section Theorems

lemma adjB_pos (s : Score) : 0 < adjB s := by
  unfold adjB
  split
  · norm_num
  · exact lt_of_not_le (by assumption)

lemma streamLoop_eq (frames : List String) (ending : Option String) :
    streamLoop frames ending =
      frames.map sseWrap ++
        (match ending with
         | none => []
         | some e => [jsonErrorBody e]) := by
  induction frames with
  | nil => cases ending <;> simp [streamLoop]
  | cons f rest ih => simp [streamLoop, ih]

/-- C5 counterexample: when the upstream stream fails immediately with a
non-EOF error, the handler writes the JSON error body into the stream and then
still writes the terminal `"data: [DONE]\n\n"` frame (main.go line 110 runs
unconditionally), contradicting the claim that nothing is written after the
error response. -/
theorem stream_done_after_error_counterexample :
    chatStreamWrites [] (some ("boom")) = [jsonErrorBody ("boom"), "data: [DONE]\n\n"] ∧
    chatStreamWrites [] (some ("boom")) ≠ [jsonErrorBody ("boom")] := by
  constructor
  · rfl
  · intro h
    have hlen := congrArg List.length h
    simp [chatStreamWrites, streamLoop] at hlen

/-- C5 (amended): every upstream frame is forwarded verbatim wrapped as
`"data: <frame>\n\n"`; on EOF the writes are exactly the wrapped frames followed
by the terminal `"data: [DONE]\n\n"` frame; on any other upstream error the JSON
error body is written, the forwarding loop stops, and the terminal
`"data: [DONE]\n\n"` frame is still written afterwards. -/
theorem chatStreamWrites_spec (frames : List String) (e : String) :
    chatStreamWrites frames none = frames.map sseWrap ++ ["data: [DONE]\n\n"] ∧
    chatStreamWrites frames (some e) =
      frames.map sseWrap ++ [jsonErrorBody e, "data: [DONE]\n\n"] := by
  constructor <;> simp [chatStreamWrites, streamLoop_eq]

/-- C8: after successful JSON binding, the chat handler reads
`request.Messages[0]` unconditionally, so a well-formed request whose messages
array is empty panics with an out-of-range index (modelled by
`ChatOutcome.panicked`) and never produces a structured error response. -/
theorem chatApiHandler_empty_messages_panics {ε : Type} (cfg : Config) (model : String)
    (streamFlag : Bool) (extra : ε) (llm : ChatRequest ε → Except String String)
    (rag : String → Except String String) :
    chatApiHandler cfg ⟨model, streamFlag, [], extra⟩ llm rag = ChatOutcome.panicked ∧
    ∀ e, chatApiHandler cfg ⟨model, streamFlag, [], extra⟩ llm rag ≠ ChatOutcome.errored e := by
  refine ⟨rfl, ?_⟩
  intro e h
  simp [chatApiHandler] at h

/-- C3: for every non-empty input batch, a successful `calcEmbeddings` returns
exactly one vector per input text, and a remote response whose vector count
differs from the input count is rejected with the `"embedding length mismatch"`
error. -/
theorem calcEmbeddings_length_spec (input : List String)
    (resp : Except String (List Embedding)) (h : input ≠ []) :
    (∀ out, calcEmbeddings input resp = Except.ok out → out.length = input.length) ∧
    (∀ data, resp = Except.ok data → data.length ≠ input.length →
      calcEmbeddings input resp = Except.error ("embedding length mismatch")) := by
  have hlen : ¬ input.length = 0 := fun h0 => h (List.length_eq_zero.mp h0)
  constructor
  · intro out hout
    cases resp with
    | error e => simp [calcEmbeddings, hlen] at hout
    | ok data =>
      by_cases hd : data.length = input.length
      · simp [calcEmbeddings, hlen, hd] at hout
        rw [← hout]
        exact hd
      · simp [calcEmbeddings, hlen, hd] at hout
  · intro data hdata hne
    subst hdata
    simp [calcEmbeddings, hlen, hne]

/-- C3 witness: the theorem instantiated at the one-element batch `["a"]` with a
matching and a mismatching remote response. -/
theorem calcEmbeddings_length_spec_witness :
    ((["a"] : List String) ≠ []) ∧
    ((∀ out, calcEmbeddings ["a"] (Except.ok [dummyEmb]) = Except.ok out →
        out.length = (["a"] : List String).length) ∧
     (∀ data, (Except.ok [dummyEmb] : Except String (List Embedding)) = Except.ok data →
        data.length ≠ (["a"] : List String).length →
        calcEmbeddings ["a"] (Except.ok [dummyEmb]) =
          Except.error ("embedding length mismatch"))) :=
  ⟨by decide, calcEmbeddings_length_spec ["a"] (Except.ok [dummyEmb]) (by decide)⟩

/-- C6 counterexample: a summary-manifest line whose id fails integer parsing is
not skipped — it aborts the whole load, and the following valid line is never
processed. -/
theorem summary_manifest_parse_abort_counterexample :
    loadSummaryLines (fun _ => some ("c")) (fun _ => none) ["abc:s1", "7:s2"] =
      Except.error ("invalid syntax: abc") ∧
    loadSummaryLines (fun _ => some ("c")) (fun _ => none) ["abc:s1", "7:s2"] ≠
      loadSummaryLines (fun _ => some ("c")) (fun _ => none) ["7:s2"] := by
  constructor
  · rfl
  · decide

/-- C6 (amended): in the summary-manifest loop, a line without a colon separator
is skipped silently and loading continues with the remaining lines, but a line
whose id fails integer parsing aborts the whole load with an error. -/
theorem summary_manifest_line_policy (content titles : Int → Option String)
    (lnc lbad : String) (rest rest2 : List String) (s0 s1 : String)
    (h1 : (splitN2 lnc).length ≠ 2)
    (h2 : splitN2 lbad = [s0, s1])
    (h3 : atoi s0 = none) :
    loadSummaryLines content titles (lnc :: rest) = loadSummaryLines content titles rest ∧
    loadSummaryLines content titles (lbad :: rest2) =
      Except.error ("invalid syntax: " ++ s0) := by
  constructor
  · rcases hsp : splitN2 lnc with _ | ⟨a, _ | ⟨b, _ | ⟨c, tl⟩⟩⟩
    · simp [loadSummaryLines, hsp]
    · simp [loadSummaryLines, hsp]
    · exact absurd (by rw [hsp]; rfl) h1
    · simp [loadSummaryLines, hsp]
  · simp [loadSummaryLines, h2, h3]

/-- C6 witness: the policy instantiated at a separator-free line and at a line
with an unparsable id. -/
theorem summary_manifest_line_policy_witness :
    ((splitN2 ("noseparator")).length ≠ 2) ∧
    (splitN2 ("abc:s") = ["abc", "s"]) ∧
    (atoi ("abc") = none) ∧
    (loadSummaryLines (fun _ => some ("c")) (fun _ => none) ["noseparator", "7:s"] =
        loadSummaryLines (fun _ => some ("c")) (fun _ => none) ["7:s"] ∧
      loadSummaryLines (fun _ => some ("c")) (fun _ => none) ["abc:s"] =
        Except.error ("invalid syntax: abc")) :=
  ⟨by decide, by decide, by decide,
    summary_manifest_line_policy (fun _ => some ("c")) (fun _ => none)
      "noseparator" "abc:s" ["7:s"] [] "abc" "s" (by decide) (by decide) (by decide)⟩

/-- C7: manifest id-parse failures are handled asymmetrically — the
title-manifest loop skips a line whose id fails integer parsing and keeps
processing the remaining lines, while the summary-manifest loop aborts the
entire load with an error on the same kind of line. -/
theorem manifest_asymmetric_policy (content titles : Int → Option String)
    (lbad : String) (rest rest2 : List String) (s0 s1 : String)
    (h1 : splitN2 lbad = [s0, s1])
    (h2 : atoi s0 = none) :
    parseTitles (lbad :: rest) = parseTitles rest ∧
    loadSummaryLines content titles (lbad :: rest2) =
      Except.error ("invalid syntax: " ++ s0) := by
  constructor
  · simp [parseTitles, h1, h2]
  · simp [loadSummaryLines, h1, h2]

/-- C7 witness: the asymmetric policy instantiated at the line `"seven:x"`,
whose id `"seven"` fails integer parsing. -/
theorem manifest_asymmetric_policy_witness :
    (splitN2 ("seven:x") = ["seven", "x"]) ∧
    (atoi ("seven") = none) ∧
    (parseTitles ["seven:x", "8:t"] = parseTitles ["8:t"] ∧
      loadSummaryLines (fun _ => some ("c")) (fun _ => none) ["seven:x"] =
        Except.error ("invalid syntax: seven")) :=
  ⟨by decide, by decide,
    manifest_asymmetric_policy (fun _ => some ("c")) (fun _ => none)
      "seven:x" ["8:t"] [] "seven" "x" (by decide) (by decide)⟩

/-- C2: for a chat request with messages `[{system,"Be terse"},{user,"What is X?"}]`
and succeeding downstream calls, the handler first issues a summarization call
whose transcript contains only the user message (the system message is omitted;
its index `1` is preserved), then runs retrieval on the synthesized question,
then issues the final streaming call whose system message equals `"Be terse"`
and whose user message embeds the synthesized question and the retrieved
context through the fixed template. -/
theorem chatApiHandler_end_to_end {ε : Type} (cfg : Config) (model : String)
    (streamFlag : Bool) (extra : ε) (llm : ChatRequest ε → Except String String)
    (rag : String → Except String String) (q r : String)
    (hllm : llm
        { model := cfg.modelWithoutThinking
          stream := false
          messages := [⟨"system", summarizeInstruction⟩,
                       ⟨"user", "1. [role=user] What is X?\n\n"⟩]
          extra := extra } = Except.ok q)
    (hrag : rag q = Except.ok r) :
    chatApiHandler cfg
        { model := model
          stream := streamFlag
          messages := [⟨"system", "Be terse"⟩, ⟨"user", "What is X?"⟩]
          extra := extra } llm rag =
      ChatOutcome.streaming
        { model := cfg.modelWithoutThinking
          stream := false
          messages := [⟨"system", summarizeInstruction⟩,
                       ⟨"user", "1. [role=user] What is X?\n\n"⟩]
          extra := extra }
        q r
        { model := model
          stream := true
          messages := [⟨"system", "Be terse"⟩, ⟨"user", finalUserContent q r⟩]
          extra := extra } := by
  have hhist : buildChatHistory [⟨"system", "Be terse"⟩, ⟨"user", "What is X?"⟩] =
      "1. [role=user] What is X?\n\n" := by decide
  simp [chatApiHandler, hhist, hllm, hrag]

/-- C2 witness: the end-to-end theorem instantiated with constant oracles. -/
theorem chatApiHandler_end_to_end_witness :
    ((fun _ : ChatRequest Unit => (Except.ok ("Q") : Except String String))
        { model := "m0"
          stream := false
          messages := [⟨"system", summarizeInstruction⟩,
                       ⟨"user", "1. [role=user] What is X?\n\n"⟩]
          extra := () } = Except.ok ("Q")) ∧
    ((fun _ : String => (Except.ok ("R") : Except String String)) ("Q") = Except.ok ("R")) ∧
    chatApiHandler ⟨"m0", 25, 5⟩
        { model := "gpt"
          stream := false
          messages := [⟨"system", "Be terse"⟩, ⟨"user", "What is X?"⟩]
          extra := () }
        (fun _ => Except.ok ("Q")) (fun _ => Except.ok ("R")) =
      ChatOutcome.streaming
        { model := "m0"
          stream := false
          messages := [⟨"system", summarizeInstruction⟩,
                       ⟨"user", "1. [role=user] What is X?\n\n"⟩]
          extra := () }
        "Q" "R"
        { model := "gpt"
          stream := true
          messages := [⟨"system", "Be terse"⟩, ⟨"user", finalUserContent ("Q") ("R")⟩]
          extra := () } :=
  ⟨rfl, rfl,
    chatApiHandler_end_to_end ⟨"m0", 25, 5⟩ "gpt" false ()
      (fun _ => Except.ok ("Q")) (fun _ => Except.ok ("R")) "Q" "R" rfl rfl⟩

/-- C10: whenever the handler reaches the streaming stage, the summarization
request and the final streaming request are both the caller's original request
value with only the model, stream and messages fields replaced — in particular
every other caller-supplied field (the opaque `extra` component) is forwarded
unchanged to both outbound calls. -/
theorem chatApiHandler_preserves_extra_fields {ε : Type} (cfg : Config)
    (req : ChatRequest ε) (llm : ChatRequest ε → Except String String)
    (rag : String → Except String String) (sr fr : ChatRequest ε) (q r : String)
    (h : chatApiHandler cfg req llm rag = ChatOutcome.streaming sr q r fr) :
    sr.extra = req.extra ∧ fr.extra = req.extra ∧
    sr.model = cfg.modelWithoutThinking ∧ sr.stream = false ∧
    fr.model = req.model ∧ fr.stream = true := by
  simp only [chatApiHandler] at h
  split at h
  · exact absurd h (by simp)
  · split at h
    · exact absurd h (by simp)
    · split at h
      · exact absurd h (by simp)
      · rw [ChatOutcome.streaming.injEq] at h
        obtain ⟨h1, h2, h3, h4⟩ := h
        subst h1
        subst h4
        simp

/-- C10 witness: the frame condition instantiated at a concrete request with
constant oracles. -/
theorem chatApiHandler_preserves_extra_fields_witness :
    (chatApiHandler ⟨"m0", 25, 5⟩
        { model := "gpt", stream := true, messages := [⟨"user", "hi"⟩], extra := (37 : Nat) }
        (fun _ => Except.ok ("Q")) (fun _ => Except.ok ("R")) =
      ChatOutcome.streaming
        { model := "m0"
          stream := false
          messages := [⟨"system", summarizeInstruction⟩,
                       ⟨"user", buildChatHistory [⟨"user", "hi"⟩]⟩]
          extra := (37 : Nat) }
        "Q" "R"
        { model := "gpt"
          stream := true
          messages := [⟨"system", ""⟩, ⟨"user", finalUserContent ("Q") ("R")⟩]
          extra := (37 : Nat) }) ∧
    ({ model := "m0"
       stream := false
       messages := [⟨"system", summarizeInstruction⟩,
                    ⟨"user", buildChatHistory [⟨"user", "hi"⟩]⟩]
       extra := (37 : Nat) } : ChatRequest Nat).extra =
        ({ model := "gpt", stream := true, messages := [⟨"user", "hi"⟩],
           extra := (37 : Nat) } : ChatRequest Nat).extra ∧
    ({ model := "gpt"
       stream := true
       messages := [⟨"system", ""⟩, ⟨"user", finalUserContent ("Q") ("R")⟩]
       extra := (37 : Nat) } : ChatRequest Nat).extra =
        ({ model := "gpt", stream := true, messages := [⟨"user", "hi"⟩],
           extra := (37 : Nat) } : ChatRequest Nat).extra ∧
    ({ model := "m0"
       stream := false
       messages := [⟨"system", summarizeInstruction⟩,
                    ⟨"user", buildChatHistory [⟨"user", "hi"⟩]⟩]
       extra := (37 : Nat) } : ChatRequest Nat).model = (⟨"m0", 25, 5⟩ : Config).modelWithoutThinking ∧
    ({ model := "m0"
       stream := false
       messages := [⟨"system", summarizeInstruction⟩,
                    ⟨"user", buildChatHistory [⟨"user", "hi"⟩]⟩]
       extra := (37 : Nat) } : ChatRequest Nat).stream = false ∧
    ({ model := "gpt"
       stream := true
       messages := [⟨"system", ""⟩, ⟨"user", finalUserContent ("Q") ("R")⟩]
       extra := (37 : Nat) } : ChatRequest Nat).model =
        ({ model := "gpt", stream := true, messages := [⟨"user", "hi"⟩],
           extra := (37 : Nat) } : ChatRequest Nat).model ∧
    ({ model := "gpt"
       stream := true
       messages := [⟨"system", ""⟩, ⟨"user", finalUserContent ("Q") ("R")⟩],
       extra := (37 : Nat) } : ChatRequest Nat).stream = true :=
  ⟨rfl,
    chatApiHandler_preserves_extra_fields ⟨"m0", 25, 5⟩
      { model := "gpt", stream := true, messages := [⟨"user", "hi"⟩], extra := (37 : Nat) }
      (fun _ => Except.ok ("Q")) (fun _ => Except.ok ("R")) _ _ ("Q") ("R") rfl⟩

/-- C9: `RunRAG` indexes `allDocuments` with the `Index` fields reported by the
embedding endpoint and indexes the candidate id list with the `index` fields
reported by the rerank endpoint, both verbatim. On a one-document corpus, a
remote embedding `Index` of `5` makes it panic, a remote rerank index of `3`
makes it panic, and with both remote indices equal to the local positions the
same corpus succeeds — the unstated precondition that remote indices equal
local positions. -/
theorem runRAG_index_trust :
    RunRAG ⟨"m", 1, 1⟩ [⟨7, "", "c7", "s7"⟩] [(7, 0)]
        [{ index := 5, vec := [1] }]
        (Except.ok [{ index := 0, vec := [1] }])
        (fun _ _ _ => Except.ok [{ index := 0, relevanceScore := 1 }]) "q" =
      RagOutcome.panicked ∧
    RunRAG ⟨"m", 1, 1⟩ [⟨7, "", "c7", "s7"⟩] [(7, 0)]
        [{ index := 0, vec := [1] }]
        (Except.ok [{ index := 0, vec := [1] }])
        (fun _ _ _ => Except.ok [{ index := 3, relevanceScore := 1 }]) "q" =
      RagOutcome.panicked ∧
    (∃ s, RunRAG ⟨"m", 1, 1⟩ [⟨7, "", "c7", "s7"⟩] [(7, 0)]
        [{ index := 0, vec := [1] }]
        (Except.ok [{ index := 0, vec := [1] }])
        (fun _ _ _ => Except.ok [{ index := 0, relevanceScore := 1 }]) "q" =
      RagOutcome.succeeded s) := by
  refine ⟨?_, ?_, ?_⟩
  · norm_num [RunRAG, findSimilar, calcEmbeddings, findSimilarCore, dotProduct, dotQ,
      mkScores, List.insertionSort, List.orderedInsert, getElems, lookupIdx,
      formatDocsLoop, formatDoc, List.find?]
  · norm_num [RunRAG, findSimilar, calcEmbeddings, findSimilarCore, dotProduct, dotQ,
      mkScores, List.insertionSort, List.orderedInsert, getElems, lookupIdx,
      formatDocsLoop, formatDoc, List.find?]
  · exact ⟨("检索到以下" ++ toString (1 : Nat) ++ "篇文档：\n\n") ++
        (formatDoc 0 ⟨7, "", "c7", "s7"⟩ ++ ""),
      by norm_num [RunRAG, findSimilar, calcEmbeddings, findSimilarCore, dotProduct, dotQ,
        mkScores, List.insertionSort, List.orderedInsert, getElems, lookupIdx,
        formatDocsLoop, List.find?]⟩

lemma mkScores_degenerate (emb : Embedding) (l : List Embedding) :
    ∀ i, (∃ v ∈ l, dotQ v.vec v.vec ≤ 0) →
      ∃ e, mkScores emb l i = Except.error e := by
  induction l with
  | nil =>
    intro i hdeg
    obtain ⟨v, hv, _⟩ := hdeg
    exact absurd hv (List.not_mem_nil v)
  | cons v0 rest ih =>
    intro i hdeg
    have h1 : dotProduct v0.vec v0.vec = Except.ok (dotQ v0.vec v0.vec) := by
      simp [dotProduct]
    by_cases h0 : dotQ v0.vec v0.vec ≤ 0
    · exact ⟨"metric embedding " ++ toString i ++ " is zero", by simp [mkScores, h1, h0]⟩
    · obtain ⟨v, hv, hvd⟩ := hdeg
      have hv' : v ∈ rest := by
        rcases List.mem_cons.mp hv with rfl | h
        · exact absurd hvd h0
        · exact h
      cases h2 : dotProduct emb.vec v0.vec with
      | error e => exact ⟨e, by simp [mkScores, h1, h0, h2]⟩
      | ok d =>
        obtain ⟨e, he⟩ := ih (i + 1) ⟨v, hv', hvd⟩
        exact ⟨e, by simp [mkScores, h1, h0, h2, he]⟩

/-- C4: whenever the query embedding or any corpus embedding has a zero or
negative self-dot-product, `findSimilar` returns an error and no position
sequence — a degenerate vector is never scored as zero similarity. -/
theorem findSimilar_degenerate_error (emb : Embedding) (embeddings : List Embedding)
    (topN : Nat)
    (hdeg : dotQ emb.vec emb.vec ≤ 0 ∨ ∃ v ∈ embeddings, dotQ v.vec v.vec ≤ 0) :
    ∃ e, findSimilarCore emb embeddings topN = Except.error e := by
  have h1 : dotProduct emb.vec emb.vec = Except.ok (dotQ emb.vec emb.vec) := by
    simp [dotProduct]
  by_cases hq : dotQ emb.vec emb.vec ≤ 0
  · exact ⟨"embedding is zero", by simp [findSimilarCore, h1, hq]⟩
  · rcases hdeg with h | h
    · exact absurd h hq
    · obtain ⟨e, he⟩ := mkScores_degenerate emb embeddings 0 h
      exact ⟨e, by simp [findSimilarCore, h1, hq, he]⟩

/-- C4 witness: the degenerate-input theorem instantiated at the zero query
vector `[0]`. -/
theorem findSimilar_degenerate_error_witness :
    (dotQ [(0 : ℚ)] [(0 : ℚ)] ≤ 0 ∨ ∃ v ∈ [dummyEmb], dotQ v.vec v.vec ≤ 0) ∧
    ∃ e, findSimilarCore { index := 0, vec := [(0 : ℚ)] } [dummyEmb] 1 = Except.error e :=
  ⟨Or.inl (by norm_num [dotQ]),
    findSimilar_degenerate_error { index := 0, vec := [(0 : ℚ)] } [dummyEmb] 1
      (Or.inl (by norm_num [dotQ]))⟩

/-- C1 counterexample: over a corpus of two distinct entries that both report
remote `Index` 0, `findSimilar` succeeds but returns the position `0` twice, so
the returned positions do not reference distinct documents. -/
theorem findSimilar_duplicate_index_counterexample :
    findSimilarCore { index := 0, vec := [1] }
        [{ index := 0, vec := [1] }, { index := 0, vec := [1] }] 2 =
      Except.ok [0, 0] ∧
    ¬ ([0, 0] : List Nat).Nodup := by
  constructor
  · norm_num [findSimilarCore, dotProduct, dotQ, mkScores, List.insertionSort,
      List.orderedInsert, scoreGE, adjDot, adjB]
  · decide

lemma scoreGE_iff_real (a b : Score) (ha : 0 < a.dotB) (hb : 0 < b.dotB) :
    scoreGE a b ↔
      (b.dot : ℝ) / Real.sqrt ((b.dotB : ℚ) : ℝ) ≤
        (a.dot : ℝ) / Real.sqrt ((a.dotB : ℚ) : ℝ) := by
  have hA : (0 : ℝ) < ((a.dotB : ℚ) : ℝ) := by exact_mod_cast ha
  have hB : (0 : ℝ) < ((b.dotB : ℚ) : ℝ) := by exact_mod_cast hb
  have hsA : 0 < Real.sqrt ((a.dotB : ℚ) : ℝ) := Real.sqrt_pos.mpr hA
  have hsB : 0 < Real.sqrt ((b.dotB : ℚ) : ℝ) := Real.sqrt_pos.mpr hB
  have hsqA : Real.sqrt ((a.dotB : ℚ) : ℝ) ^ 2 = ((a.dotB : ℚ) : ℝ) := Real.sq_sqrt hA.le
  have hsqB : Real.sqrt ((b.dotB : ℚ) : ℝ) ^ 2 = ((b.dotB : ℚ) : ℝ) := Real.sq_sqrt hB.le
  have hadA : adjDot a = a.dot := if_neg (not_le.mpr ha)
  have hadB : adjDot b = b.dot := if_neg (not_le.mpr hb)
  have habA : adjB a = a.dotB := if_neg (not_le.mpr ha)
  have habB : adjB b = b.dotB := if_neg (not_le.mpr hb)
  rw [div_le_div_iff₀ hsB hsA]
  unfold scoreGE
  rw [hadA, hadB, habA, habB]
  constructor
  · rintro (⟨h1, h2, h3⟩ | ⟨h1, h2⟩ | ⟨h1, h2, h3⟩)
    · have h1' : (0 : ℝ) ≤ (a.dot : ℝ) := by exact_mod_cast h1
      have h2' : (0 : ℝ) ≤ (b.dot : ℝ) := by exact_mod_cast h2
      have h3' : ((b.dot : ℝ)) ^ 2 * ((a.dotB : ℚ) : ℝ) ≤
          ((a.dot : ℝ)) ^ 2 * ((b.dotB : ℚ) : ℝ) := by exact_mod_cast h3
      have ka : (b.dot : ℝ) * Real.sqrt ((a.dotB : ℚ) : ℝ) =
          Real.sqrt (((b.dot : ℝ)) ^ 2 * ((a.dotB : ℚ) : ℝ)) := by
        rw [Real.sqrt_mul (sq_nonneg _), Real.sqrt_sq h2']
      have kb : (a.dot : ℝ) * Real.sqrt ((b.dotB : ℚ) : ℝ) =
          Real.sqrt (((a.dot : ℝ)) ^ 2 * ((b.dotB : ℚ) : ℝ)) := by
        rw [Real.sqrt_mul (sq_nonneg _), Real.sqrt_sq h1']
      rw [ka, kb]
      exact Real.sqrt_le_sqrt h3'
    · have h1' : (0 : ℝ) ≤ (a.dot : ℝ) := by exact_mod_cast h1
      have h2' : ((b.dot : ℝ)) < 0 := by exact_mod_cast h2
      nlinarith [mul_nonneg h1' hsB.le, mul_pos (neg_pos.mpr h2') hsA]
    · have h1' : ((a.dot : ℝ)) < 0 := by exact_mod_cast h1
      have h2' : ((b.dot : ℝ)) < 0 := by exact_mod_cast h2
      have h3' : ((a.dot : ℝ)) ^ 2 * ((b.dotB : ℚ) : ℝ) ≤
          ((b.dot : ℝ)) ^ 2 * ((a.dotB : ℚ) : ℝ) := by exact_mod_cast h3
      have ka : (-(a.dot : ℝ)) * Real.sqrt ((b.dotB : ℚ) : ℝ) =
          Real.sqrt (((a.dot : ℝ)) ^ 2 * ((b.dotB : ℚ) : ℝ)) := by
        rw [Real.sqrt_mul (sq_nonneg _), Real.sqrt_sq_eq_abs, abs_of_neg h1']
      have kb : (-(b.dot : ℝ)) * Real.sqrt ((a.dotB : ℚ) : ℝ) =
          Real.sqrt (((b.dot : ℝ)) ^ 2 * ((a.dotB : ℚ) : ℝ)) := by
        rw [Real.sqrt_mul (sq_nonneg _), Real.sqrt_sq_eq_abs, abs_of_neg h2']
      have hmono := Real.sqrt_le_sqrt h3'
      rw [← ka, ← kb] at hmono
      linarith
  · intro h
    rcases le_or_lt 0 a.dot with h1 | h1 <;> rcases le_or_lt 0 b.dot with h2 | h2
    · left
      refine ⟨h1, h2, ?_⟩
      have h1' : (0 : ℝ) ≤ (a.dot : ℝ) := by exact_mod_cast h1
      have h2' : (0 : ℝ) ≤ (b.dot : ℝ) := by exact_mod_cast h2
      have hx : (0 : ℝ) ≤ (b.dot : ℝ) * Real.sqrt ((a.dotB : ℚ) : ℝ) :=
        mul_nonneg h2' hsA.le
      have hsq := mul_self_le_mul_self hx h
      have hgoal : ((b.dot : ℝ)) ^ 2 * ((a.dotB : ℚ) : ℝ) ≤
          ((a.dot : ℝ)) ^ 2 * ((b.dotB : ℚ) : ℝ) := by nlinarith [hsqA, hsqB]
      exact_mod_cast hgoal
    · right; left; exact ⟨h1, h2⟩
    · exfalso
      have h1' : ((a.dot : ℝ)) < 0 := by exact_mod_cast h1
      have h2' : (0 : ℝ) ≤ (b.dot : ℝ) := by exact_mod_cast h2
      nlinarith [mul_nonneg h2' hsA.le, mul_pos (neg_pos.mpr h1') hsB]
    · right; right
      refine ⟨h1, h2, ?_⟩
      have h1' : ((a.dot : ℝ)) < 0 := by exact_mod_cast h1
      have h2' : ((b.dot : ℝ)) < 0 := by exact_mod_cast h2
      have hx : (0 : ℝ) ≤ -((a.dot : ℝ)) * Real.sqrt ((b.dotB : ℚ) : ℝ) :=
        mul_nonneg (by linarith) hsB.le
      have h' : -((a.dot : ℝ)) * Real.sqrt ((b.dotB : ℚ) : ℝ) ≤
          -((b.dot : ℝ)) * Real.sqrt ((a.dotB : ℚ) : ℝ) := by nlinarith
      have hsq := mul_self_le_mul_self hx h'
      have hgoal : ((a.dot : ℝ)) ^ 2 * ((b.dotB : ℚ) : ℝ) ≤
          ((b.dot : ℝ)) ^ 2 * ((a.dotB : ℚ) : ℝ) := by nlinarith [hsqA, hsqB]
      exact_mod_cast hgoal

lemma mkScores_ok (emb : Embedding) (l : List Embedding) :
    ∀ i, (∀ v ∈ l, 0 < dotQ v.vec v.vec) → (∀ v ∈ l, v.vec.length = emb.vec.length) →
      mkScores emb l i = Except.ok (l.map (scoreOf emb)) := by
  induction l with
  | nil =>
    intro i _ _
    simp [mkScores]
  | cons v rest ih =>
    intro i hpos hlen
    have h1 : dotProduct v.vec v.vec = Except.ok (dotQ v.vec v.vec) := by
      simp [dotProduct]
    have h2 : dotProduct emb.vec v.vec = Except.ok (dotQ emb.vec v.vec) := by
      simp [dotProduct, hlen v (List.mem_cons_self v rest)]
    have h3 : ¬ dotQ v.vec v.vec ≤ 0 := not_le.mpr (hpos v (List.mem_cons_self v rest))
    have h4 := ih (i + 1) (fun w hw => hpos w (List.mem_cons_of_mem v hw))
      (fun w hw => hlen w (List.mem_cons_of_mem v hw))
    simp [mkScores, h1, h2, h3, h4, scoreOf]

/-- C1 (amended): for every query embedding with strictly positive
self-dot-product and every non-empty corpus whose vectors all have the query's
dimension, strictly positive self-dot-products, and carry their own position as
remote `Index` (the load-time alignment invariant), `findSimilar` succeeds and
returns exactly `min n corpusSize` positions, pairwise distinct and in range,
sorted by non-increasing cosine similarity `dot(q,v) / (‖q‖·‖v‖)`. -/
theorem findSimilar_wellformed_spec (emb : Embedding) (corpus : List Embedding) (n : Nat)
    (hq : 0 < dotQ emb.vec emb.vec)
    (hpos : ∀ v ∈ corpus, 0 < dotQ v.vec v.vec)
    (hlen : ∀ v ∈ corpus, v.vec.length = emb.vec.length)
    (hidx : corpus.map Embedding.index = List.range corpus.length)
    (hne : corpus ≠ []) :
    ∃ res, findSimilarCore emb corpus n = Except.ok res ∧
      res.length = min n corpus.length ∧
      res.Nodup ∧
      (∀ p ∈ res, p < corpus.length) ∧
      List.Sorted (fun p q => cosSim emb corpus q ≤ cosSim emb corpus p) res := by
  have hdA : dotProduct emb.vec emb.vec = Except.ok (dotQ emb.vec emb.vec) := by
    simp [dotProduct]
  have hms := mkScores_ok emb corpus 0 hpos hlen
  set scores := corpus.map (scoreOf emb) with hscores
  set sorted := List.insertionSort scoreGE scores with hsorted
  set k := min n corpus.length with hk
  have hres : findSimilarCore emb corpus n =
      Except.ok ((sorted.take k).map Score.index) := by
    simp only [findSimilarCore, hdA, hms]
    rw [if_neg (not_le.mpr hq)]
  have hperm : sorted.Perm scores := List.perm_insertionSort scoreGE scores
  have hlen_sorted : sorted.length = corpus.length := by
    rw [hperm.length_eq, hscores, List.length_map]
  have hkle : k ≤ corpus.length := min_le_right n corpus.length
  have hlen_res : ((sorted.take k).map Score.index).length = k := by
    rw [List.length_map, List.length_take, hlen_sorted]
    exact min_eq_left hkle
  have hmapidx : scores.map Score.index = List.range corpus.length := by
    rw [hscores, List.map_map]
    have hco : (Score.index ∘ scoreOf emb) = Embedding.index := rfl
    rw [hco, hidx]
  have hsortedmap : (sorted.map Score.index).Perm (List.range corpus.length) := by
    rw [← hmapidx]
    exact hperm.map Score.index
  have hnodup : ((sorted.take k).map Score.index).Nodup := by
    rw [List.map_take]
    exact List.Nodup.sublist (List.take_sublist _ _)
      (hsortedmap.nodup_iff.mpr (List.nodup_range _))
  have hbound : ∀ p ∈ (sorted.take k).map Score.index, p < corpus.length := by
    intro p hp
    rw [List.map_take] at hp
    have hp2 : p ∈ sorted.map Score.index := (List.take_sublist _ _).subset hp
    exact List.mem_range.mp (hsortedmap.mem_iff.mp hp2)
  have hchar : ∀ s ∈ sorted, 0 < s.dotB ∧
      cosSim emb corpus s.index =
        (s.dot : ℝ) / (Real.sqrt ((dotQ emb.vec emb.vec : ℚ) : ℝ) *
          Real.sqrt ((s.dotB : ℚ) : ℝ)) := by
    intro s hs
    have hs2 : s ∈ scores := hperm.mem_iff.mp hs
    rw [hscores] at hs2
    obtain ⟨v, hv, rfl⟩ := List.mem_map.mp hs2
    obtain ⟨⟨j, hj⟩, hvg⟩ := List.mem_iff_get.mp hv
    have hvidx : v.index = j := by
      have hg1 : (corpus.map Embedding.index).get? j = some v.index := by
        rw [List.get?_map, List.get?_eq_get hj, hvg]
        rfl
      rw [hidx, List.get?_range hj] at hg1
      exact (Option.some_inj.mp hg1).symm
    have hgetD : corpus.getD v.index dummyEmb = v := by
      rw [hvidx, List.getD_eq_get?, List.get?_eq_get hj, hvg]
      rfl
    refine ⟨hpos v hv, ?_⟩
    show cosSim emb corpus v.index = _
    unfold cosSim
    rw [hgetD]
    rfl
  have hsorted_scores : List.Sorted scoreGE sorted :=
    List.sorted_insertionSort scoreGE scores
  have hsorted_take : List.Pairwise scoreGE (sorted.take k) :=
    List.Pairwise.sublist (List.take_sublist _ _) hsorted_scores
  have hfinal : List.Sorted (fun p q => cosSim emb corpus q ≤ cosSim emb corpus p)
      ((sorted.take k).map Score.index) := by
    apply List.pairwise_map.mpr
    apply List.Pairwise.imp_of_mem ?_ hsorted_take
    intro s t hs ht hge
    have hsmem : s ∈ sorted := (List.take_sublist _ _).subset hs
    have htmem : t ∈ sorted := (List.take_sublist _ _).subset ht
    obtain ⟨hposS, hcosS⟩ := hchar s hsmem
    obtain ⟨hposT, hcosT⟩ := hchar t htmem
    rw [hcosS, hcosT]
    have hiff := (scoreGE_iff_real s t hposS hposT).mp hge
    have hdApos : (0 : ℝ) < Real.sqrt ((dotQ emb.vec emb.vec : ℚ) : ℝ) :=
      Real.sqrt_pos.mpr (by exact_mod_cast hq)
    rw [mul_comm (Real.sqrt ((dotQ emb.vec emb.vec : ℚ) : ℝ)) (Real.sqrt ((t.dotB : ℚ) : ℝ)),
      mul_comm (Real.sqrt ((dotQ emb.vec emb.vec : ℚ) : ℝ)) (Real.sqrt ((s.dotB : ℚ) : ℝ)),
      ← div_div, ← div_div]
    exact (div_le_div_right hdApos).mpr hiff
  exact ⟨(sorted.take k).map Score.index, hres, hlen_res, hnodup, hbound, hfinal⟩

/-- C1 witness: the specification instantiated at the query `[1,0]` and the
two-vector aligned corpus `[[1,0],[0,1]]`. -/
theorem findSimilar_wellformed_spec_witness :
    (0 < dotQ [(1 : ℚ), 0] [(1 : ℚ), 0]) ∧
    (∀ v ∈ [({ index := 0, vec := [1, 0] } : Embedding),
        { index := 1, vec := [0, 1] }], 0 < dotQ v.vec v.vec) ∧
    (∀ v ∈ [({ index := 0, vec := [1, 0] } : Embedding),
        { index := 1, vec := [0, 1] }], v.vec.length = ([(1 : ℚ), 0] : List ℚ).length) ∧
    (([({ index := 0, vec := [1, 0] } : Embedding),
        { index := 1, vec := [0, 1] }].map Embedding.index) =
      List.range ([({ index := 0, vec := [1, 0] } : Embedding),
        { index := 1, vec := [0, 1] }].length)) ∧
    ([({ index := 0, vec := [1, 0] } : Embedding), { index := 1, vec := [0, 1] }] ≠ []) ∧
    (∃ res, findSimilarCore { index := 0, vec := [1, 0] }
          [{ index := 0, vec := [1, 0] }, { index := 1, vec := [0, 1] }] 5 =
        Except.ok res ∧
      res.length = min 5 ([({ index := 0, vec := [1, 0] } : Embedding),
        { index := 1, vec := [0, 1] }].length) ∧
      res.Nodup ∧
      (∀ p ∈ res, p < ([({ index := 0, vec := [1, 0] } : Embedding),
        { index := 1, vec := [0, 1] }].length)) ∧
      List.Sorted (fun p q =>
        cosSim { index := 0, vec := [1, 0] }
            [{ index := 0, vec := [1, 0] }, { index := 1, vec := [0, 1] }] q ≤
          cosSim { index := 0, vec := [1, 0] }
            [{ index := 0, vec := [1, 0] }, { index := 1, vec := [0, 1] }] p) res) :=
  ⟨by norm_num [dotQ],
    by
      intro v hv
      rcases List.mem_cons.mp hv with rfl | hv2
      · norm_num [dotQ]
      · rcases List.mem_cons.mp hv2 with rfl | hv3
        · norm_num [dotQ]
        · exact absurd hv3 (List.not_mem_nil v),
    by
      intro v hv
      rcases List.mem_cons.mp hv with rfl | hv2
      · rfl
      · rcases List.mem_cons.mp hv2 with rfl | hv3
        · rfl
        · exact absurd hv3 (List.not_mem_nil v),
    by decide,
    by decide,
    findSimilar_wellformed_spec { index := 0, vec := [1, 0] }
      [{ index := 0, vec := [1, 0] }, { index := 1, vec := [0, 1] }] 5
      (by norm_num [dotQ])
      (by
        intro v hv
        rcases List.mem_cons.mp hv with rfl | hv2
        · norm_num [dotQ]
        · rcases List.mem_cons.mp hv2 with rfl | hv3
          · norm_num [dotQ]
          · exact absurd hv3 (List.not_mem_nil v))
      (by
        intro v hv
        rcases List.mem_cons.mp hv with rfl | hv2
        · rfl
        · rcases List.mem_cons.mp hv2 with rfl | hv3
          · rfl
          · exact absurd hv3 (List.not_mem_nil v))
      (by decide) (by decide)⟩

end Theorems

end Lento
